import Mathlib

/-!
Verification development for the order lifecycle and payment reconciliation
subsystem of an e-commerce storefront (Next.js + Prisma).  The definitions
below are a shallow embedding of the server actions in
src/lib/actions/order.actions.ts together with the data shapes of
src/prisma/schema.prisma and src/types/index.ts.  The Prisma database is
modelled as partial maps from row ids to rows; each server action becomes a
pure state-passing function returning its structured result together with
the successor database state.  External collaborators (the session
provider, the PayPal SDK, the cart fetched by getMyCart) are modelled as
explicit inputs, matching section 6 of the specification.
-/

namespace ProShop

/-- Product row: the core only touches the stock column (schema.prisma,
model Product, column stock : Int). -/
structure Product where
  stock : Int
deriving DecidableEq

/-- OrderItem row (schema.prisma, model OrderItem): denormalized snapshot
of a product at order time; composite identity (orderId, productId).  The
rows of one order are kept as a list attached to that order, mirroring the
include orderitems reads in order.actions.ts. -/
structure OrderItem where
  productId : String
  qty : Int
  price : Rat
  name : String
  slug : String
  image : String
deriving DecidableEq

/-- PaymentResult value object (paymentResultSchema in src/lib/validator.ts):
stored as an opaque JSON payload on the order. -/
structure PaymentResult where
  id : String
  status : String
  email_address : String
  pricePaid : String
deriving DecidableEq

/-- Order row (schema.prisma, model Order).  Timestamps are abstracted to
natural numbers; the shipping address JSON blob is opaque to the core and
kept as a string. -/
structure Order where
  userId : String
  shippingAddress : String
  paymentMethod : String
  paymentResult : Option PaymentResult
  itemsPrice : Rat
  shippingPrice : Rat
  taxPrice : Rat
  totalPrice : Rat
  isPaid : Bool
  paidAt : Option Nat
  isDelivered : Bool
  deliveredAt : Option Nat
  createdAt : Nat
  orderitems : List OrderItem
deriving DecidableEq

/-- Cart line item (cartItemSchema in src/lib/validator.ts). -/
structure CartItem where
  productId : String
  name : String
  slug : String
  qty : Int
  image : String
  price : Rat
deriving DecidableEq

/-- Cart row (insertCartSchema in src/lib/validator.ts plus the row id):
items plus the four derived totals. -/
structure Cart where
  id : String
  items : List CartItem
  itemsPrice : Rat
  totalPrice : Rat
  shippingPrice : Rat
  taxPrice : Rat
deriving DecidableEq

/-- User row: the order assembler only reads address (a nullable JSON
column, opaque here) and paymentMethod (a nullable string column). -/
structure User where
  address : Option String
  paymentMethod : Option String
deriving DecidableEq

/-- Database state: partial maps from row id to row, one per table the
core touches. -/
structure Db where
  orders : String → Option Order
  products : String → Option Product
  carts : String → Option Cart
  users : String → Option User

/-- Structured result returned by the server actions: success flag and
message always, redirectTo and data only on the actions that produce
them. -/
structure ActionRes where
  success : Bool
  message : String
  redirectTo : Option String := none
  data : Option String := none
deriving DecidableEq

/-- Capture payload returned by paypal.capturePayment: transaction id,
status, payer email address and the captured amount value (the field read
as purchase_units[0].payments.captures[0].amount.value). -/
structure Capture where
  id : String
  status : String
  email_address : String
  pricePaid : String
deriving DecidableEq

/-- JavaScript falsiness of a nullable string: null and the empty string
are falsy. -/
def jsStrFalsy : Option String → Bool
  | none => true
  | some s => s = ""

/-- Write one order row. -/
def setOrder (db : Db) (oid : String) (o : Order) : Db :=
  { db with orders := fun i => if i = oid then some o else db.orders i }

/-- The product-update loop of the mark-paid transaction
(order.actions.ts, updateOrderToPaid): for each order item, update the
product row by a relative increment of -qty (data: stock: increment -qty).
A missing product row makes the Prisma update throw (P2025) and the
surrounding transaction roll back, modelled by returning none. -/
def applyDecrements : List OrderItem → (String → Option Product) →
    Option (String → Option Product)
  | [], ps => some ps
  | it :: rest, ps =>
    match ps it.productId with
    | none => none
    | some p =>
      applyDecrements rest
        (fun i => if i = it.productId then some { stock := p.stock + (-it.qty) } else ps i)

/-- The order row written by the mark-paid transaction: isPaid set, paidAt
set to the current time, and paymentResult overwritten only when an
argument was supplied — Prisma skips an update field whose value is
undefined, so the cash-on-delivery call leaves the stored paymentResult
column untouched. -/
def paidOrder (o : Order) (pr? : Option PaymentResult) (now : Nat) : Order :=
  { o with isPaid := true, paidAt := some now,
           paymentResult := match pr? with
             | some pr => some pr
             | none => o.paymentResult }

/-- The body of the prisma.$transaction in updateOrderToPaid: decrement the
stock of every product referenced by the pre-read order snapshot and set
the order to paid in one atomic step. -/
def markPaidTx (db : Db) (oid : String) (o : Order) (pr? : Option PaymentResult)
    (now : Nat) : Option Db :=
  match applyDecrements o.orderitems db.products with
  | none => none
  | some ps =>
    some { setOrder db oid (paidOrder o pr? now) with products := ps }

/-- Embedding of updateOrderToPaid (order.actions.ts): read the order,
fail if it is missing or already paid, otherwise run the mark-paid
transaction.  Thrown errors become the error branch of Except. -/
def updateOrderToPaid (db : Db) (oid : String) (pr? : Option PaymentResult)
    (now : Nat) : Except String Db :=
  match db.orders oid with
  | none => .error "Order not found"
  | some o =>
    if o.isPaid then .error "Order is already paid"
    else
      match markPaidTx db oid o pr? now with
      | none => .error "Record not found"
      | some db1 => .ok db1

/-- The capture verification of approvePayPalOrder: the captured
transaction id must equal the id stored in the paymentResult column of the
order (a missing stored payload never matches) and the capture status must
be COMPLETED.  Returns true when the capture must be rejected. -/
def captureMismatch (o : Order) (c : Capture) : Bool :=
  (match o.paymentResult with
   | none => true
   | some pr => c.id != pr.id) || c.status != "COMPLETED"

/-- Payment payload built by approvePayPalOrder from the capture data. -/
def toPaymentResult (c : Capture) : PaymentResult :=
  { id := c.id, status := c.status, email_address := c.email_address,
    pricePaid := c.pricePaid }

/-- Embedding of approvePayPalOrder (order.actions.ts).  The result of the
external paypal.capturePayment call is an explicit input; none models a
falsy response.  Every thrown error is caught and returned as a failure
result with the unchanged database. -/
def approvePayPalOrder (db : Db) (oid : String) (capture : Option Capture)
    (now : Nat) : ActionRes × Db :=
  match db.orders oid with
  | none => ({ success := false, message := "Order not found" }, db)
  | some o =>
    match capture with
    | none => ({ success := false, message := "Error in paypal payment" }, db)
    | some c =>
      if captureMismatch o c then
        ({ success := false, message := "Error in paypal payment" }, db)
      else
        match updateOrderToPaid db oid (some (toPaymentResult c)) now with
        | .error e => ({ success := false, message := e }, db)
        | .ok db1 =>
          ({ success := true,
             message := "Your order has been successfully paid by PayPal" }, db1)

/-- Embedding of updateOrderToPaidByCOD (order.actions.ts): call
updateOrderToPaid without a payment result and catch its errors. -/
def updateOrderToPaidByCOD (db : Db) (oid : String) (now : Nat) :
    ActionRes × Db :=
  match updateOrderToPaid db oid none now with
  | .error e => ({ success := false, message := e }, db)
  | .ok db1 => ({ success := true, message := "Order paid successfully" }, db1)

/-- Embedding of deliverOrder (order.actions.ts): fail when the order is
missing or unpaid, otherwise set isDelivered and deliveredAt. -/
def deliverOrder (db : Db) (oid : String) (now : Nat) : ActionRes × Db :=
  match db.orders oid with
  | none => ({ success := false, message := "Order not found" }, db)
  | some o =>
    if !o.isPaid then ({ success := false, message := "Order is not paid" }, db)
    else
      ({ success := true, message := "Order delivered successfully" },
       setOrder db oid { o with isDelivered := true, deliveredAt := some now })

/-- Placeholder payment payload written by createPayPalOrder: the freshly
created provider order id with empty email, empty status and pricePaid
zero. -/
def placeholderPaymentResult (providerOrderId : String) : PaymentResult :=
  { id := providerOrderId, email_address := "", status := "", pricePaid := "0" }

/-- Embedding of createPayPalOrder (order.actions.ts).  The id returned by
the external paypal.createOrder call is an explicit input.  When the order
exists, its paymentResult column is overwritten with the placeholder
payload, with no check of the paid state. -/
def createPayPalOrder (db : Db) (oid : String) (providerOrderId : String) :
    ActionRes × Db :=
  match db.orders oid with
  | none => ({ success := false, message := "Order not found" }, db)
  | some o =>
    ({ success := true, message := "PayPal order created successfully",
       data := some providerOrderId },
     setOrder db oid
       { o with paymentResult := some (placeholderPaymentResult providerOrderId) })

/-- Payment method whitelist (src/lib/constants.ts, PAYMENT_METHODS with
its default value). -/
def PAYMENT_METHODS : List String := ["PayPal", "Stripe", "CashOnDelivery"]

/-- The currency refinement of the zod schemas (src/lib/validator.ts): a
price must be a non-negative value with at most two decimal places. -/
def currencyOk (q : Rat) : Bool :=
  decide (0 ≤ q) && decide ((q * 100).den = 1)

/-- The checks of insertOrderSchema.parse relevant to the embedded fields:
non-empty user id, whitelisted payment method, and the four prices in
currency format. -/
def insertOrderParseOk (userId pm : String) (c : Cart) : Bool :=
  decide (userId ≠ "") && PAYMENT_METHODS.contains pm &&
    currencyOk c.itemsPrice && currencyOk c.shippingPrice &&
    currencyOk c.taxPrice && currencyOk c.totalPrice

/-- The order-item row created from a cart line item in the createOrder
transaction (data: ...item, price: item.price, orderId). -/
def toOrderItem (ci : CartItem) : OrderItem :=
  { productId := ci.productId, qty := ci.qty, price := ci.price,
    name := ci.name, slug := ci.slug, image := ci.image }

/-- The order row assembled by createOrder from the validated user and
cart data; Prisma fills the paid and delivered columns with their schema
defaults. -/
def assembledOrder (uid addr pm : String) (cart : Cart) (now : Nat) : Order :=
  { userId := uid, shippingAddress := addr, paymentMethod := pm,
    paymentResult := none,
    itemsPrice := cart.itemsPrice, shippingPrice := cart.shippingPrice,
    taxPrice := cart.taxPrice, totalPrice := cart.totalPrice,
    isPaid := false, paidAt := none, isDelivered := false,
    deliveredAt := none, createdAt := now,
    orderitems := cart.items.map toOrderItem }

/-- The cart row after the clearing update of the createOrder transaction:
items emptied and the four totals zeroed. -/
def clearedCart (c : Cart) : Cart :=
  { c with items := [], totalPrice := 0, shippingPrice := 0, taxPrice := 0,
           itemsPrice := 0 }

/-- Embedding of createOrder (order.actions.ts).  The session and the cart
returned by getMyCart are explicit inputs; the database-generated uuid of
the new order row is the input newOrderId.  The guards of the transaction
reflect the database constraints: a primary-key collision on Order.id, a
composite-key collision among the created OrderItem rows, a missing
Product row behind a foreign key, or a vanished cart row all make the
transaction throw and roll back, which the catch block turns into a
failure result with the database unchanged. -/
def createOrder (db : Db) (session : Option (Option String))
    (cart? : Option Cart) (newOrderId : String) (now : Nat) :
    ActionRes × Db :=
  match session with
  | none => ({ success := false, message := "User is not authenticated" }, db)
  | some muid =>
    match muid with
    | none => ({ success := false, message := "User not found" }, db)
    | some uid =>
      if uid = "" then ({ success := false, message := "User not found" }, db)
      else
        match db.users uid with
        | none => ({ success := false, message := "User not found" }, db)
        | some user =>
          match cart? with
          | none =>
            ({ success := false, message := "Your cart is empty",
               redirectTo := some "/cart" }, db)
          | some cart =>
            if cart.items.isEmpty then
              ({ success := false, message := "Your cart is empty",
                 redirectTo := some "/cart" }, db)
            else
              match user.address with
              | none =>
                ({ success := false, message := "Please add a shipping address",
                   redirectTo := some "/shipping-address" }, db)
              | some addr =>
                if jsStrFalsy user.paymentMethod then
                  ({ success := false,
                     message := "Please select a payment method",
                     redirectTo := some "/payment-method" }, db)
                else
                  let pm := user.paymentMethod.getD ""
                  if !insertOrderParseOk uid pm cart then
                    ({ success := false, message := "Invalid order data" }, db)
                  else if (db.orders newOrderId).isSome then
                    ({ success := false,
                       message := "Unique constraint failed" }, db)
                  else if !(cart.items.map (fun i => i.productId)).Nodup then
                    ({ success := false,
                       message := "Unique constraint failed" }, db)
                  else if !cart.items.all
                      (fun i => (db.products i.productId).isSome) then
                    ({ success := false,
                       message := "Foreign key constraint failed" }, db)
                  else
                    match db.carts cart.id with
                    | none =>
                      ({ success := false, message := "Record not found" }, db)
                    | some c0 =>
                      let db1 : Db :=
                        { db with
                          orders := fun i =>
                            if i = newOrderId then
                              some (assembledOrder uid addr pm cart now)
                            else db.orders i,
                          carts := fun i =>
                            if i = cart.id then some (clearedCart c0)
                            else db.carts i }
                      if newOrderId = "" then
                        ({ success := false, message := "Order not created" }, db1)
                      else
                        ({ success := true,
                           message := "Order successfully created",
                           redirectTo := some ("/order/" ++ newOrderId) }, db1)

/-! ### Interleaving model of payment reconciliation

updateOrderToPaid performs its already-paid check with a plain findFirst
read issued before the prisma.$transaction that decrements stock and flips
the paid flag; nothing orders the read and the write of two concurrent
calls.  The two database interactions of one call are therefore modelled
as two separate atomic steps, and two concurrent reconciliation calls on
the same order as an explicit interleaving of those steps. -/

/-- Progress of one in-flight reconciliation call: not yet started, past
the guard holding the pre-read order snapshot, or finished with a success
flag. -/
inductive Phase where
  | start : Phase
  | checked : Order → Phase
  | done : Bool → Phase
deriving DecidableEq

/-- One atomic step of an in-flight reconciliation call: the first step is
the findFirst read plus the already-paid guard, the second step is the
mark-paid transaction run against the snapshot taken by the first. -/
def stepCall (oid : String) (pr? : Option PaymentResult) (now : Nat) :
    Db × Phase → Db × Phase
  | (db, .start) =>
    match db.orders oid with
    | none => (db, .done false)
    | some o => if o.isPaid then (db, .done false) else (db, .checked o)
  | (db, .checked o) =>
    match markPaidTx db oid o pr? now with
    | none => (db, .done false)
    | some db1 => (db1, .done true)
  | (db, .done b) => (db, .done b)

/-- Joint state of two concurrent reconciliation calls on one order. -/
structure TwoCalls where
  db : Db
  ph1 : Phase
  ph2 : Phase

/-- Run the two concurrent calls under a schedule: false advances the
first call by one atomic step, true advances the second. -/
def runSched (oid : String) (pr? : Option PaymentResult) (now : Nat) :
    List Bool → TwoCalls → TwoCalls
  | [], s => s
  | b :: rest, s =>
    if b then
      let r := stepCall oid pr? now (s.db, s.ph2)
      runSched oid pr? now rest { db := r.1, ph1 := s.ph1, ph2 := r.2 }
    else
      let r := stepCall oid pr? now (s.db, s.ph1)
      runSched oid pr? now rest { db := r.1, ph1 := r.2, ph2 := s.ph2 }

/-! ### Currency rounding (src/lib/utils.ts, round2)

The source computes Math.round((value + Number.EPSILON) * 100) / 100 on
IEEE-754 binary64 numbers.  Two readings are embedded: the exact rational
reading of the same expression (round2Q), and a step-by-step evaluation of
the expression under IEEE round-to-nearest (rnGrid applied at the unit in
the last place of the relevant binade), which settles how the floating
evaluation behaves at a concrete input. -/

/-- JavaScript Math.round on the exact value of its argument: round half
toward positive infinity. -/
def jsMathRound (x : Rat) : Int := ⌊x + 1 / 2⌋

/-- Exact rational reading of round2: add Number.EPSILON = 2 ^ (-52),
scale by 100, Math.round, unscale. -/
def round2Q (x : Rat) : Rat :=
  ((jsMathRound ((x + 1 / 2 ^ 52) * 100) : Int) : Rat) / 100

/-- IEEE round-to-nearest, ties to even, onto the grid of the multiples of
g; instantiating g with the unit in the last place of a binade gives the
binary64 rounding of a real number lying in that binade. -/
def rnGrid (g : Rat) (x : Rat) : Rat :=
  let n := x / g
  let f := ⌊n⌋
  let r := n - (f : Rat)
  if r < 1 / 2 then (f : Rat) * g
  else if 1 / 2 < r then ((f + 1 : Int) : Rat) * g
  else if f % 2 = 0 then (f : Rat) * g else ((f + 1 : Int) : Rat) * g

/-- Decimal half-up rounding to two decimal places, reported in cents:
the rounding the specification prescribes for currency values. -/
def halfUpCents (x : Rat) : Int := ⌊x * 100 + 1 / 2⌋

/-- Binary64 evaluation trace of round2, in cents, for an input value in
the binade with unit in the last place gIn whose epsilon-shifted multiple
by 100 lies in the binade with unit in the last place gProd: round the
decimal literal to the nearest double, add Number.EPSILON and round, scale
by 100 and round, then apply Math.round. -/
def jsRound2Cents (gIn gProd : Rat) (x : Rat) : Int :=
  let d0 := rnGrid gIn x
  let d1 := rnGrid gIn (d0 + 1 / 2 ^ 52)
  let d2 := rnGrid gProd (d1 * 100)
  jsMathRound d2

/-! ### Order state invariants (specification sections 3 and 4.4) -/

/-- Invariant of a single order row: an unpaid order has no paid
timestamp, and a delivered order is paid. -/
def OrderOk (o : Order) : Prop :=
  (o.isPaid = false → o.paidAt = none) ∧ (o.isDelivered = true → o.isPaid = true)

/-- Invariant of the database: every order row satisfies OrderOk. -/
def DbOk (db : Db) : Prop :=
  ∀ oid o, db.orders oid = some o → OrderOk o

/-- One core operation applied to the database: order assembly, one of the
two payment reconciliation entry points, or delivery marking, with
arbitrary arguments. -/
inductive CoreStep : Db → Db → Prop where
  | create (db : Db) (session : Option (Option String)) (cart? : Option Cart)
      (oid : String) (now : Nat) :
      CoreStep db (createOrder db session cart? oid now).2
  | approve (db : Db) (oid : String) (cap : Option Capture) (now : Nat) :
      CoreStep db (approvePayPalOrder db oid cap now).2
  | cod (db : Db) (oid : String) (now : Nat) :
      CoreStep db (updateOrderToPaidByCOD db oid now).2
  | deliver (db : Db) (oid : String) (now : Nat) :
      CoreStep db (deliverOrder db oid now).2

/-- Total quantity of an order referencing a given product: the amount by
which the mark-paid transaction decrements that product. -/
def itemsQty (items : List OrderItem) (pid : String) : Int :=
  ((items.filter (fun it => it.productId = pid)).map (fun it => it.qty)).sum

/-! ### Concrete fixtures used by witnesses and counterexamples -/

/-- Sample order item: two units of product p1 at 25.00 each. -/
def itemA : OrderItem :=
  { productId := "p1", qty := 2, price := 25, name := "Widget",
    slug := "widget", image := "img" }

/-- Sample unpaid cash-on-delivery order with no stored payment payload. -/
def ordA : Order :=
  { userId := "u1", shippingAddress := "addr", paymentMethod := "CashOnDelivery",
    paymentResult := none, itemsPrice := 50, shippingPrice := 10, taxPrice := 5,
    totalPrice := 65, isPaid := false, paidAt := none, isDelivered := false,
    deliveredAt := none, createdAt := 0, orderitems := [itemA] }

/-- Sample unpaid PayPal order carrying the provider order id recorded by
createPayPalOrder. -/
def ordB : Order :=
  { ordA with paymentMethod := "PayPal",
              paymentResult := some { id := "pp1", status := "", email_address := "",
                                      pricePaid := "0" } }

/-- Sample paid order. -/
def ordPaid : Order :=
  { ordB with isPaid := true, paidAt := some 3,
              paymentResult := some { id := "pp1", status := "COMPLETED",
                                      email_address := "b@x", pricePaid := "65" } }

/-- Capture payload matching the provider order id recorded on ordB. -/
def capA : Capture :=
  { id := "pp1", status := "COMPLETED", email_address := "b@x", pricePaid := "65" }

/-- Database holding the unpaid cash-on-delivery order and its product. -/
def dbA : Db :=
  { orders := fun i => if i = "o1" then some ordA else none,
    products := fun i => if i = "p1" then some { stock := 10 } else none,
    carts := fun _ => none,
    users := fun _ => none }

/-- Database holding the unpaid PayPal order and its product. -/
def dbB : Db :=
  { dbA with orders := fun i => if i = "o1" then some ordB else none }

/-- Database holding a paid order and its product. -/
def dbPaid : Db :=
  { dbA with orders := fun i => if i = "o1" then some ordPaid else none }

/-- Sample cart line item. -/
def cartItemA : CartItem :=
  { productId := "p1", name := "Widget", slug := "widget", qty := 2,
    image := "img", price := 25 }

/-- Sample non-empty cart with currency-formatted totals. -/
def cartA : Cart :=
  { id := "c1", items := [cartItemA], itemsPrice := 50, totalPrice := 65,
    shippingPrice := 10, taxPrice := 5 }

/-- Sample user with shipping address and payment method set. -/
def userA : User :=
  { address := some "addr", paymentMethod := some "CashOnDelivery" }

/-- Sample user with no shipping address. -/
def userNoAddr : User :=
  { address := none, paymentMethod := none }

/-- Sample user with an address but no payment method. -/
def userNoPm : User :=
  { address := some "addr", paymentMethod := none }

/-- Database for the order-assembly witnesses: a user, a cart row and the
referenced product, no orders yet. -/
def dbC : Db :=
  { orders := fun _ => none,
    products := fun i => if i = "p1" then some { stock := 10 } else none,
    carts := fun i => if i = "c1" then some cartA else none,
    users := fun i =>
      if i = "u1" then some userA
      else if i = "u2" then some userNoAddr
      else if i = "u3" then some userNoPm
      else none }

/-! ### Helper lemmas about the mark-paid transaction -/

theorem itemsQty_cons (it : OrderItem) (rest : List OrderItem) (pid : String) :
    itemsQty (it :: rest) pid =
      (if it.productId = pid then it.qty else 0) + itemsQty rest pid := by
  by_cases h : it.productId = pid <;>
    simp [itemsQty, List.filter_cons, h]

theorem applyDecrements_lookup (items : List OrderItem) :
    ∀ ps ps2 : String → Option Product,
    applyDecrements items ps = some ps2 →
    ∀ pid p, ps pid = some p →
      ps2 pid = some { stock := p.stock - itemsQty items pid } := by
  induction items with
  | nil =>
    intro ps ps2 h pid p hp
    simp only [applyDecrements] at h
    cases h
    simpa [itemsQty] using hp
  | cons it rest ih =>
    intro ps ps2 h pid p hp
    simp only [applyDecrements] at h
    cases hit : ps it.productId with
    | none => simp [hit] at h
    | some p0 =>
      simp only [hit] at h
      by_cases hpid : pid = it.productId
      · have hpp : some p = some p0 := by rw [← hp, hpid, hit]
        obtain rfl : p = p0 := Option.some.inj hpp
        have step := ih _ _ h pid { stock := p.stock + -it.qty } (by simp [hpid])
        rw [step, itemsQty_cons, if_pos hpid.symm]
        have harith : p.stock + -it.qty - itemsQty rest pid =
            p.stock - (it.qty + itemsQty rest pid) := by omega
        rw [harith]
      · have hps : (fun i => if i = it.productId then
            some { stock := p0.stock + -it.qty } else ps i) pid = some p := by
          simp [hpid, hp]
        have step := ih _ _ h pid p hps
        rw [step, itemsQty_cons, if_neg (fun hc => hpid hc.symm)]
        have : p.stock - (0 + itemsQty rest pid) =
            p.stock - itemsQty rest pid := by omega
        rw [this]

theorem markPaidTx_eq (db : Db) (oid : String) (o : Order)
    (pr? : Option PaymentResult) (now : Nat) (db1 : Db)
    (h : markPaidTx db oid o pr? now = some db1) :
    db1.orders = (fun i => if i = oid then some (paidOrder o pr? now)
                           else db.orders i) ∧
    applyDecrements o.orderitems db.products = some db1.products ∧
    db1.carts = db.carts ∧ db1.users = db.users := by
  simp only [markPaidTx] at h
  cases happ : applyDecrements o.orderitems db.products with
  | none => simp [happ] at h
  | some ps =>
    simp only [happ] at h
    cases h
    refine ⟨rfl, ?_, rfl, rfl⟩
    simp [happ]

theorem markPaidTx_products (db : Db) (oid : String) (o : Order)
    (pr? : Option PaymentResult) (now : Nat) (db1 : Db)
    (h : markPaidTx db oid o pr? now = some db1) :
    ∀ pid p, db.products pid = some p →
      db1.products pid = some { stock := p.stock - itemsQty o.orderitems pid } := by
  intro pid p hp
  exact applyDecrements_lookup o.orderitems db.products db1.products
    (markPaidTx_eq db oid o pr? now db1 h).2.1 pid p hp

theorem updateOrderToPaid_ok (db : Db) (oid : String) (o : Order)
    (pr? : Option PaymentResult) (now : Nat) (db1 : Db)
    (ho : db.orders oid = some o) (hp : o.isPaid = false)
    (hm : markPaidTx db oid o pr? now = some db1) :
    updateOrderToPaid db oid pr? now = .ok db1 := by
  simp [updateOrderToPaid, ho, hp, hm]

theorem updateOrderToPaid_already (db : Db) (oid : String) (o : Order)
    (pr? : Option PaymentResult) (now : Nat)
    (ho : db.orders oid = some o) (hp : o.isPaid = true) :
    updateOrderToPaid db oid pr? now = .error "Order is already paid" := by
  simp [updateOrderToPaid, ho, hp]

theorem updateOrderToPaid_ok_inv (db : Db) (oid : String)
    (pr? : Option PaymentResult) (now : Nat) (db1 : Db)
    (h : updateOrderToPaid db oid pr? now = .ok db1) :
    ∃ o, db.orders oid = some o ∧ o.isPaid = false ∧
      markPaidTx db oid o pr? now = some db1 := by
  simp only [updateOrderToPaid] at h
  cases ho : db.orders oid with
  | none => simp [ho] at h
  | some o =>
    simp only [ho] at h
    by_cases hp : o.isPaid = true
    · simp [hp] at h
    · simp only [Bool.not_eq_true] at hp
      simp only [hp, Bool.false_eq_true, if_false] at h
      cases hm : markPaidTx db oid o pr? now with
      | none => simp [hm] at h
      | some db2 =>
        simp only [hm] at h
        cases h
        exact ⟨o, rfl, hp, hm⟩

theorem captureMismatch_false_iff (o : Order) (c : Capture) :
    captureMismatch o c = false ↔
      (∃ pr, o.paymentResult = some pr ∧ c.id = pr.id) ∧
        c.status = "COMPLETED" := by
  cases hpr : o.paymentResult <;> simp [captureMismatch, hpr]

theorem approvePayPalOrder_ok (db : Db) (oid : String) (o : Order) (c : Capture)
    (now : Nat) (db1 : Db) (ho : db.orders oid = some o)
    (hcm : captureMismatch o c = false)
    (hu : updateOrderToPaid db oid (some (toPaymentResult c)) now = .ok db1) :
    approvePayPalOrder db oid (some c) now =
      ({ success := true,
         message := "Your order has been successfully paid by PayPal" }, db1) := by
  simp [approvePayPalOrder, ho, hcm, hu]

theorem approvePayPalOrder_alreadyPaid (db : Db) (oid : String) (o : Order)
    (c : Capture) (now : Nat) (ho : db.orders oid = some o)
    (hcm : captureMismatch o c = false) (hp : o.isPaid = true) :
    approvePayPalOrder db oid (some c) now =
      ({ success := false, message := "Order is already paid" }, db) := by
  simp [approvePayPalOrder, ho, hcm,
    updateOrderToPaid_already db oid o (some (toPaymentResult c)) now ho hp]

theorem updateOrderToPaidByCOD_alreadyPaid (db : Db) (oid : String) (o : Order)
    (now : Nat) (ho : db.orders oid = some o) (hp : o.isPaid = true) :
    updateOrderToPaidByCOD db oid now =
      ({ success := false, message := "Order is already paid" }, db) := by
  simp [updateOrderToPaidByCOD,
    updateOrderToPaid_already db oid o none now ho hp]

theorem updateOrderToPaidByCOD_ok (db : Db) (oid : String) (o : Order)
    (now : Nat) (db1 : Db) (ho : db.orders oid = some o)
    (hp : o.isPaid = false) (hm : markPaidTx db oid o none now = some db1) :
    updateOrderToPaidByCOD db oid now =
      ({ success := true, message := "Order paid successfully" }, db1) := by
  simp [updateOrderToPaidByCOD,
    updateOrderToPaid_ok db oid o none now db1 ho hp hm]

/-! ### Claim theorems -/

/-- C1: once an order is paid, a second reconciliation attempt — through
the PayPal capture path or the cash-on-delivery path, both of which reach
updateOrderToPaid — fails with the already-paid error and performs no
state change: after a first successful capture, the stock decrement has
happened exactly once, the paid fields hold the values of the first call,
and both second attempts return the already-paid failure together with
the untouched database. -/
theorem paid_order_second_reconciliation_rejected
    (db : Db) (oid : String) (o : Order) (c : Capture) (now1 now2 now3 : Nat)
    (ho : db.orders oid = some o) (hunpaid : o.isPaid = false)
    (hcm : captureMismatch o c = false)
    (htx : (markPaidTx db oid o (some (toPaymentResult c)) now1).isSome = true) :
    (approvePayPalOrder db oid (some c) now1).1.success = true ∧
    (approvePayPalOrder db oid (some c) now1).2.orders oid =
      some (paidOrder o (some (toPaymentResult c)) now1) ∧
    (paidOrder o (some (toPaymentResult c)) now1).isPaid = true ∧
    (paidOrder o (some (toPaymentResult c)) now1).paidAt = some now1 ∧
    (paidOrder o (some (toPaymentResult c)) now1).paymentResult =
      some (toPaymentResult c) ∧
    (∀ pid p, db.products pid = some p →
      (approvePayPalOrder db oid (some c) now1).2.products pid =
        some { stock := p.stock - itemsQty o.orderitems pid }) ∧
    approvePayPalOrder (approvePayPalOrder db oid (some c) now1).2 oid
        (some c) now2 =
      ({ success := false, message := "Order is already paid" },
       (approvePayPalOrder db oid (some c) now1).2) ∧
    updateOrderToPaidByCOD (approvePayPalOrder db oid (some c) now1).2 oid now3 =
      ({ success := false, message := "Order is already paid" },
       (approvePayPalOrder db oid (some c) now1).2) := by
  obtain ⟨db1, hm⟩ := Option.isSome_iff_exists.mp htx
  have happ := approvePayPalOrder_ok db oid o c now1 db1 ho hcm
    (updateOrderToPaid_ok db oid o (some (toPaymentResult c)) now1 db1 ho hunpaid hm)
  have horders := (markPaidTx_eq db oid o (some (toPaymentResult c)) now1 db1 hm).1
  have ho1 : db1.orders oid = some (paidOrder o (some (toPaymentResult c)) now1) := by
    rw [horders]; simp
  have hstat : c.status = "COMPLETED" :=
    ((captureMismatch_false_iff o c).mp hcm).2
  have hcm1 : captureMismatch (paidOrder o (some (toPaymentResult c)) now1) c = false := by
    apply (captureMismatch_false_iff _ c).mpr
    exact ⟨⟨toPaymentResult c, by simp [paidOrder], rfl⟩, hstat⟩
  have hpaid1 : (paidOrder o (some (toPaymentResult c)) now1).isPaid = true := by
    simp [paidOrder]
  rw [happ]
  refine ⟨rfl, ho1, hpaid1, by simp [paidOrder], by simp [paidOrder], ?_, ?_, ?_⟩
  · intro pid p hp
    exact markPaidTx_products db oid o (some (toPaymentResult c)) now1 db1 hm pid p hp
  · exact approvePayPalOrder_alreadyPaid db1 oid
      (paidOrder o (some (toPaymentResult c)) now1) c now2 ho1 hcm1 hpaid1
  · exact updateOrderToPaidByCOD_alreadyPaid db1 oid
      (paidOrder o (some (toPaymentResult c)) now1) now3 ho1 hpaid1

/-- Witness for C1: the concrete PayPal order dbB/ordB with matching
capture capA is paid once, and the repeated capture is rejected with the
already-paid error and an unchanged database. -/
theorem paid_order_second_reconciliation_rejected_witness :
    (approvePayPalOrder dbB "o1" (some capA) 5).1.success = true ∧
    approvePayPalOrder (approvePayPalOrder dbB "o1" (some capA) 5).2 "o1"
        (some capA) 6 =
      ({ success := false, message := "Order is already paid" },
       (approvePayPalOrder dbB "o1" (some capA) 5).2) ∧
    updateOrderToPaidByCOD (approvePayPalOrder dbB "o1" (some capA) 5).2 "o1" 7 =
      ({ success := false, message := "Order is already paid" },
       (approvePayPalOrder dbB "o1" (some capA) 5).2) := by
  have h := paid_order_second_reconciliation_rejected dbB "o1" ordB capA 5 6 7
    (by rfl) (by rfl) (by decide) (by decide)
  exact ⟨h.1, h.2.2.2.2.2.2.1, h.2.2.2.2.2.2.2⟩

/-- C3 counterexample: a successful Created-to-Paid transition through the
cash-on-delivery path on an order with no stored payment payload leaves
paymentResult empty — no paymentResult payload is attached, contrary to
the claim that every successful transition attaches one. -/
theorem cod_transition_attaches_no_payment_result :
    (updateOrderToPaidByCOD dbA "o1" 7).1.success = true ∧
    ((updateOrderToPaidByCOD dbA "o1" 7).2.orders "o1").map Order.isPaid =
      some true ∧
    ((updateOrderToPaidByCOD dbA "o1" 7).2.orders "o1").map Order.paymentResult =
      some none := by
  decide

/-- C3 amended: on a successful Created-to-Paid transition,
updateOrderToPaid — in one atomic transaction step — decrements the stock
of every product referenced by the order items by exactly the item
quantity through a relative decrement, sets isPaid to true and paidAt to
the current time, and attaches the supplied paymentResult payload when one
is provided (the provider path); the cash-on-delivery path supplies none
and leaves the stored paymentResult unchanged.  Rows of other orders, the
carts and the users are untouched. -/
theorem markPaid_transition_effects (db : Db) (oid : String) (o : Order)
    (pr? : Option PaymentResult) (now : Nat)
    (ho : db.orders oid = some o) (hunpaid : o.isPaid = false)
    (htx : (markPaidTx db oid o pr? now).isSome = true) :
    ∃ db1, updateOrderToPaid db oid pr? now = .ok db1 ∧
      db1.orders oid = some (paidOrder o pr? now) ∧
      (paidOrder o pr? now).isPaid = true ∧
      (paidOrder o pr? now).paidAt = some now ∧
      (paidOrder o pr? now).paymentResult =
        (match pr? with | some pr => some pr | none => o.paymentResult) ∧
      (∀ pid p, db.products pid = some p →
        db1.products pid = some { stock := p.stock - itemsQty o.orderitems pid }) ∧
      (∀ i, i ≠ oid → db1.orders i = db.orders i) ∧
      db1.carts = db.carts ∧ db1.users = db.users := by
  obtain ⟨db1, hm⟩ := Option.isSome_iff_exists.mp htx
  obtain ⟨horders, hprod, hcarts, husers⟩ := markPaidTx_eq db oid o pr? now db1 hm
  refine ⟨db1, updateOrderToPaid_ok db oid o pr? now db1 ho hunpaid hm,
    by rw [horders]; simp, by simp [paidOrder], by simp [paidOrder],
    by cases pr? <;> simp [paidOrder], ?_, ?_, hcarts, husers⟩
  · intro pid p hp
    exact markPaidTx_products db oid o pr? now db1 hm pid p hp
  · intro i hi
    rw [horders]
    simp [hi]

/-- Witness for C3 amended: the concrete cash-on-delivery order is marked
paid with its product stock decremented from 10 to 8. -/
theorem markPaid_transition_effects_witness :
    ∃ db1, updateOrderToPaid dbA "o1" none 7 = .ok db1 ∧
      db1.orders "o1" = some (paidOrder ordA none 7) ∧
      db1.products "p1" = some { stock := 10 - itemsQty ordA.orderitems "p1" } := by
  obtain ⟨db1, hok, ho1, -, -, -, hps, -⟩ :=
    markPaid_transition_effects dbA "o1" ordA none 7 (by rfl) (by rfl) (by decide)
  exact ⟨db1, hok, ho1, hps "p1" { stock := 10 } (by rfl)⟩

/-- C4: a capture whose transaction id differs from every provider order
id recorded on the order, or whose status is not COMPLETED, makes
approvePayPalOrder fail with the payment error and leave the database —
paid flags, timestamps and product stocks — entirely unchanged; a missing
capture payload fails the same way. -/
theorem approve_verification_failure (db : Db) (oid : String) (o : Order)
    (c : Capture) (now : Nat) (ho : db.orders oid = some o)
    (hbad : (∀ pr, o.paymentResult = some pr → c.id ≠ pr.id) ∨
      c.status ≠ "COMPLETED") :
    approvePayPalOrder db oid (some c) now =
      ({ success := false, message := "Error in paypal payment" }, db) ∧
    approvePayPalOrder db oid none now =
      ({ success := false, message := "Error in paypal payment" }, db) := by
  have hcm : captureMismatch o c = true := by
    cases hpr : o.paymentResult with
    | none => simp [captureMismatch, hpr]
    | some pr =>
      rcases hbad with hid | hst
      · simp [captureMismatch, hpr, hid pr hpr]
      · simp [captureMismatch, hpr, hst]
  constructor
  · simp [approvePayPalOrder, ho, hcm]
  · simp [approvePayPalOrder, ho]

/-- Witness for C4: a capture with a non-success status against the
concrete PayPal order is rejected and the database is returned
untouched. -/
theorem approve_verification_failure_witness :
    approvePayPalOrder dbB "o1"
        (some { id := "pp1", status := "PENDING", email_address := "b@x",
                pricePaid := "65" }) 5 =
      ({ success := false, message := "Error in paypal payment" }, dbB) := by
  exact (approve_verification_failure dbB "o1" ordB
    { id := "pp1", status := "PENDING", email_address := "b@x", pricePaid := "65" }
    5 (by rfl) (Or.inr (by decide))).1

/-- C7: deliverOrder on an unpaid order fails with the not-paid error and
returns the database unchanged, so isDelivered and deliveredAt keep their
values; on a paid order it succeeds and updates exactly the delivery
fields of that order — isDelivered true, deliveredAt set to the current
time — touching no product stock, no payment state and no other row. -/
theorem deliverOrder_requires_paid (db : Db) (oid : String) (o : Order)
    (now : Nat) (ho : db.orders oid = some o) :
    (o.isPaid = false →
      deliverOrder db oid now =
        ({ success := false, message := "Order is not paid" }, db)) ∧
    (o.isPaid = true →
      (deliverOrder db oid now).1 =
        { success := true, message := "Order delivered successfully" } ∧
      (deliverOrder db oid now).2.orders oid =
        some { o with isDelivered := true, deliveredAt := some now } ∧
      (∀ i, i ≠ oid → (deliverOrder db oid now).2.orders i = db.orders i) ∧
      (deliverOrder db oid now).2.products = db.products ∧
      (deliverOrder db oid now).2.carts = db.carts ∧
      (deliverOrder db oid now).2.users = db.users) := by
  constructor
  · intro hp
    simp [deliverOrder, ho, hp]
  · intro hp
    refine ⟨by simp [deliverOrder, ho, hp], ?_, ?_, ?_, ?_, ?_⟩ <;>
      simp [deliverOrder, ho, hp, setOrder]
    intro i hi
    simp [hi]

/-- Witness for C7: delivery fails on the concrete unpaid order and
succeeds on the concrete paid one, stamping the delivery fields. -/
theorem deliverOrder_requires_paid_witness :
    deliverOrder dbA "o1" 9 =
      ({ success := false, message := "Order is not paid" }, dbA) ∧
    (deliverOrder dbPaid "o1" 9).1 =
      { success := true, message := "Order delivered successfully" } ∧
    (deliverOrder dbPaid "o1" 9).2.orders "o1" =
      some { ordPaid with isDelivered := true, deliveredAt := some 9 } := by
  have h1 := (deliverOrder_requires_paid dbA "o1" ordA 9 (by rfl)).1 (by rfl)
  have h2 := (deliverOrder_requires_paid dbPaid "o1" ordPaid 9 (by rfl)).2 (by rfl)
  exact ⟨h1, h2.1, h2.2.1⟩

/-- C10: createPayPalOrder performs no paid-state check: for every
existing order — paid or not — it overwrites the stored paymentResult
with the placeholder payload built from the freshly created provider
order id and returns success, leaving every other row and column
unchanged. -/
theorem createPayPalOrder_overwrites_payment_result (db : Db) (oid : String)
    (o : Order) (pid : String) (ho : db.orders oid = some o) :
    createPayPalOrder db oid pid =
      ({ success := true, message := "PayPal order created successfully",
         data := some pid },
       { db with orders := fun i =>
           if i = oid then
             some { o with paymentResult := some (placeholderPaymentResult pid) }
           else db.orders i }) := by
  simp [createPayPalOrder, ho, setOrder]

/-- The placeholder payload spelled out, so that the shape asserted by the
claim is visible next to the theorem above. -/
theorem placeholderPaymentResult_def (pid : String) :
    placeholderPaymentResult pid =
      { id := pid, email_address := "", status := "", pricePaid := "0" } := rfl

/-- Witness for C10: on the concrete already-paid order, createPayPalOrder
succeeds and replaces the attached payment confirmation with the
placeholder payload. -/
theorem createPayPalOrder_overwrites_payment_result_witness :
    ordPaid.isPaid = true ∧
    (createPayPalOrder dbPaid "o1" "pp9").1 =
      { success := true, message := "PayPal order created successfully",
        data := some "pp9" } ∧
    (createPayPalOrder dbPaid "o1" "pp9").2.orders "o1" =
      some { ordPaid with
             paymentResult := some (placeholderPaymentResult "pp9") } := by
  have h := createPayPalOrder_overwrites_payment_result dbPaid "o1" ordPaid "pp9"
    (by rfl)
  refine ⟨by decide, by rw [h], by rw [h]; simp⟩

/-- C6: each violated precondition of createOrder surfaces as a distinct
recoverable failure result — unauthenticated caller, empty or missing
cart with a redirect to /cart, missing shipping address with a redirect
to /shipping-address, missing payment method with a redirect to
/payment-method — and in every such case the returned database is the
input database: no order is created and the cart is unchanged. -/
theorem createOrder_precondition_failures (db : Db) (uid : String)
    (user : User) (cart : Cart) (cart? : Option Cart) (oid : String)
    (now : Nat) (huid : uid ≠ "") (huser : db.users uid = some user) :
    createOrder db none cart? oid now =
      ({ success := false, message := "User is not authenticated" }, db) ∧
    createOrder db (some (some uid)) none oid now =
      ({ success := false, message := "Your cart is empty",
         redirectTo := some "/cart" }, db) ∧
    (cart.items = [] →
      createOrder db (some (some uid)) (some cart) oid now =
        ({ success := false, message := "Your cart is empty",
           redirectTo := some "/cart" }, db)) ∧
    (cart.items ≠ [] → user.address = none →
      createOrder db (some (some uid)) (some cart) oid now =
        ({ success := false, message := "Please add a shipping address",
           redirectTo := some "/shipping-address" }, db)) ∧
    (cart.items ≠ [] → ∀ addr, user.address = some addr →
      jsStrFalsy user.paymentMethod = true →
      createOrder db (some (some uid)) (some cart) oid now =
        ({ success := false, message := "Please select a payment method",
           redirectTo := some "/payment-method" }, db)) := by
  refine ⟨by simp [createOrder], by simp [createOrder, huid, huser], ?_, ?_, ?_⟩
  · intro hempty
    simp [createOrder, huid, huser, hempty]
  · intro hne haddr
    simp [createOrder, huid, huser, List.isEmpty_iff, hne, haddr]
  · intro hne addr haddr hpm
    simp [createOrder, huid, huser, List.isEmpty_iff, hne, haddr, hpm]

/-- Witness for C6: the four precondition failures at concrete inputs —
no session, a user with no address, a user with no payment method, and an
authenticated user with an empty cart. -/
theorem createOrder_precondition_failures_witness :
    createOrder dbC none (some cartA) "o9" 1 =
      ({ success := false, message := "User is not authenticated" }, dbC) ∧
    createOrder dbC (some (some "u1")) none "o9" 1 =
      ({ success := false, message := "Your cart is empty",
         redirectTo := some "/cart" }, dbC) ∧
    createOrder dbC (some (some "u2")) (some cartA) "o9" 1 =
      ({ success := false, message := "Please add a shipping address",
         redirectTo := some "/shipping-address" }, dbC) ∧
    createOrder dbC (some (some "u3")) (some cartA) "o9" 1 =
      ({ success := false, message := "Please select a payment method",
         redirectTo := some "/payment-method" }, dbC) := by
  have h1 := createOrder_precondition_failures dbC "u1" userA cartA (some cartA)
    "o9" 1 (by decide) (by rfl)
  have h2 := createOrder_precondition_failures dbC "u2" userNoAddr cartA
    (some cartA) "o9" 1 (by decide) (by rfl)
  have h3 := createOrder_precondition_failures dbC "u3" userNoPm cartA
    (some cartA) "o9" 1 (by decide) (by rfl)
  exact ⟨h1.1, h1.2.1,
    h2.2.2.2.1 (by decide) (by rfl),
    h3.2.2.2.2 (by decide) "addr" (by rfl) (by rfl)⟩

/-- C5: for an authenticated user with a set shipping address and payment
method and a valid non-empty cart of N items, createOrder — whose writes
happen in one all-or-nothing transaction step of the embedding, so no
partial order is ever visible — succeeds with a redirect to the new
order, persists exactly one new Order whose order items are exactly the N
cart line items, and in the same step resets the cart row to an empty
item list with all four totals zero; every other row is untouched. -/
theorem createOrder_assembles_and_clears (db : Db) (uid addr pm : String)
    (user : User) (cart c0 : Cart) (newOid : String) (now : Nat)
    (huid : uid ≠ "") (huser : db.users uid = some user)
    (haddr : user.address = some addr) (hpm : user.paymentMethod = some pm)
    (hpmne : pm ≠ "") (hne : cart.items ≠ [])
    (hparse : insertOrderParseOk uid pm cart = true)
    (hfresh : db.orders newOid = none) (hoidne : newOid ≠ "")
    (hnodup : (cart.items.map (fun i => i.productId)).Nodup)
    (hfk : cart.items.all (fun i => (db.products i.productId).isSome) = true)
    (hcart : db.carts cart.id = some c0) :
    (createOrder db (some (some uid)) (some cart) newOid now).1 =
      { success := true, message := "Order successfully created",
        redirectTo := some ("/order/" ++ newOid) } ∧
    (createOrder db (some (some uid)) (some cart) newOid now).2.orders newOid =
      some (assembledOrder uid addr pm cart now) ∧
    (assembledOrder uid addr pm cart now).orderitems =
      cart.items.map toOrderItem ∧
    (assembledOrder uid addr pm cart now).orderitems.length =
      cart.items.length ∧
    (assembledOrder uid addr pm cart now).isPaid = false ∧
    (createOrder db (some (some uid)) (some cart) newOid now).2.carts cart.id =
      some (clearedCart c0) ∧
    (clearedCart c0).items = [] ∧ (clearedCart c0).itemsPrice = 0 ∧
    (clearedCart c0).totalPrice = 0 ∧ (clearedCart c0).shippingPrice = 0 ∧
    (clearedCart c0).taxPrice = 0 ∧
    (∀ i, i ≠ newOid →
      (createOrder db (some (some uid)) (some cart) newOid now).2.orders i =
        db.orders i) ∧
    (∀ i, i ≠ cart.id →
      (createOrder db (some (some uid)) (some cart) newOid now).2.carts i =
        db.carts i) ∧
    (createOrder db (some (some uid)) (some cart) newOid now).2.products =
      db.products ∧
    (createOrder db (some (some uid)) (some cart) newOid now).2.users =
      db.users := by
  have hred : createOrder db (some (some uid)) (some cart) newOid now =
      ({ success := true, message := "Order successfully created",
         redirectTo := some ("/order/" ++ newOid) },
       { db with
         orders := fun i =>
           if i = newOid then some (assembledOrder uid addr pm cart now)
           else db.orders i,
         carts := fun i =>
           if i = cart.id then some (clearedCart c0) else db.carts i }) := by
    simp [createOrder, huid, huser, haddr, hpm, hpmne, hparse, hfresh,
      hnodup, hfk, hcart, hoidne, List.isEmpty_iff, hne, jsStrFalsy]
  rw [hred]
  refine ⟨rfl, by simp, rfl, by simp [assembledOrder], rfl, by simp,
    rfl, rfl, rfl, rfl, rfl, ?_, ?_, rfl, rfl⟩
  · intro i hi
    simp [hi]
  · intro i hi
    simp [hi]

/-- Validity of the concrete cart and its prices under the zod currency
checks. -/
theorem insertOrderParseOk_cartA :
    insertOrderParseOk "u1" "CashOnDelivery" cartA = true := by
  norm_num [insertOrderParseOk, currencyOk, cartA, PAYMENT_METHODS]
  decide

/-- Witness for C5: the concrete user u1 with cart cartA of one line item
gets exactly one new order o9 with that one order item, and the cart row
is emptied and zeroed. -/
theorem createOrder_assembles_and_clears_witness :
    (createOrder dbC (some (some "u1")) (some cartA) "o9" 1).1 =
      { success := true, message := "Order successfully created",
        redirectTo := some "/order/o9" } ∧
    (createOrder dbC (some (some "u1")) (some cartA) "o9" 1).2.orders "o9" =
      some (assembledOrder "u1" "addr" "CashOnDelivery" cartA 1) ∧
    (assembledOrder "u1" "addr" "CashOnDelivery" cartA 1).orderitems.length =
      cartA.items.length ∧
    (createOrder dbC (some (some "u1")) (some cartA) "o9" 1).2.carts "c1" =
      some (clearedCart cartA) := by
  have h := createOrder_assembles_and_clears dbC "u1" "addr" "CashOnDelivery"
    userA cartA cartA "o9" 1 (by decide) (by rfl) (by rfl) (by rfl) (by decide)
    (by simp [cartA]) insertOrderParseOk_cartA (by rfl) (by decide)
    (by simp [cartA]) (by rfl) (by rfl)
  exact ⟨h.1, h.2.1, h.2.2.2.1, h.2.2.2.2.2.1⟩

/-- C2 counterexample: the already-paid check of updateOrderToPaid is a
plain read issued outside the update transaction, so under the
interleaving in which both concurrent reconciliation calls pass the check
before either commits, both calls succeed and the stock of the single
ordered product (quantity 2, initial stock 10) is decremented twice, to
6 — refuting the claim that the check and the write execute under one
serializable transaction so that exactly one call can succeed. -/
theorem concurrent_reconciliation_double_decrement :
    (runSched "o1" none 7 [false, true, false, true]
      { db := dbA, ph1 := .start, ph2 := .start }).ph1 = .done true ∧
    (runSched "o1" none 7 [false, true, false, true]
      { db := dbA, ph1 := .start, ph2 := .start }).ph2 = .done true ∧
    ((runSched "o1" none 7 [false, true, false, true]
      { db := dbA, ph1 := .start, ph2 := .start }).db.products "p1").map
        Product.stock = some 6 ∧
    (dbA.products "p1").map Product.stock = some 10 ∧
    itemsQty ordA.orderitems "p1" = 2 := by
  decide

/-- C2 amended: the guard and the write are two separate atomic steps;
when the two reconciliation calls are serialized — the first completes
both of its steps before the second starts — exactly one succeeds, the
second observes the already-paid state, and stock is decremented exactly
once; the interleaving in which both calls read before either writes
makes both succeed and decrements stock twice. -/
theorem serialized_reconciliation_exactly_once (db : Db) (oid : String)
    (o : Order) (pr? : Option PaymentResult) (now : Nat)
    (ho : db.orders oid = some o) (hunpaid : o.isPaid = false)
    (htx : (markPaidTx db oid o pr? now).isSome = true) :
    ∃ db1, markPaidTx db oid o pr? now = some db1 ∧
      runSched oid pr? now [false, false, true, true]
        { db := db, ph1 := .start, ph2 := .start } =
        { db := db1, ph1 := .done true, ph2 := .done false } ∧
      (∀ pid p, db.products pid = some p →
        db1.products pid = some { stock := p.stock - itemsQty o.orderitems pid }) := by
  obtain ⟨db1, hm⟩ := Option.isSome_iff_exists.mp htx
  have ho1 : db1.orders oid = some (paidOrder o pr? now) := by
    rw [(markPaidTx_eq db oid o pr? now db1 hm).1]
    simp
  refine ⟨db1, hm, ?_, fun pid p hp =>
    markPaidTx_products db oid o pr? now db1 hm pid p hp⟩
  simp [runSched, stepCall, ho, hunpaid, hm, ho1, paidOrder]

/-- Witness for C2 amended: the serialized run on the concrete database
marks the order paid once and rejects the second call. -/
theorem serialized_reconciliation_exactly_once_witness :
    ∃ db1, markPaidTx dbA "o1" ordA none 7 = some db1 ∧
      runSched "o1" none 7 [false, false, true, true]
        { db := dbA, ph1 := .start, ph2 := .start } =
        { db := db1, ph1 := .done true, ph2 := .done false } := by
  obtain ⟨db1, hm, hrun, -⟩ := serialized_reconciliation_exactly_once dbA "o1"
    ordA none 7 (by rfl) (by rfl) (by decide)
  exact ⟨db1, hm, hrun⟩

/-! ### Outcome case analysis for each core operation, used by the
reachable-state invariant theorem -/

theorem cod_snd_cases (db : Db) (oid : String) (now : Nat) :
    (updateOrderToPaidByCOD db oid now).2 = db ∨
    ∃ o, db.orders oid = some o ∧ o.isPaid = false ∧
      (updateOrderToPaidByCOD db oid now).2.orders =
        fun i => if i = oid then some (paidOrder o none now)
                 else db.orders i := by
  cases hu : updateOrderToPaid db oid none now with
  | error e => left; simp [updateOrderToPaidByCOD, hu]
  | ok db1 =>
    right
    obtain ⟨o, ho, hp, hm⟩ := updateOrderToPaid_ok_inv db oid none now db1 hu
    have hsnd : (updateOrderToPaidByCOD db oid now).2 = db1 := by
      simp [updateOrderToPaidByCOD, hu]
    exact ⟨o, ho, hp, by rw [hsnd]; exact (markPaidTx_eq db oid o none now db1 hm).1⟩

theorem approve_snd_cases (db : Db) (oid : String) (cap : Option Capture)
    (now : Nat) :
    (approvePayPalOrder db oid cap now).2 = db ∨
    ∃ o pr, db.orders oid = some o ∧ o.isPaid = false ∧
      (approvePayPalOrder db oid cap now).2.orders =
        fun i => if i = oid then some (paidOrder o (some pr) now)
                 else db.orders i := by
  cases ho : db.orders oid with
  | none => left; simp [approvePayPalOrder, ho]
  | some o =>
    cases cap with
    | none => left; simp [approvePayPalOrder, ho]
    | some c =>
      cases hcm : captureMismatch o c with
      | true => left; simp [approvePayPalOrder, ho, hcm]
      | false =>
        cases hu : updateOrderToPaid db oid (some (toPaymentResult c)) now with
        | error e => left; simp [approvePayPalOrder, ho, hcm, hu]
        | ok db1 =>
          right
          obtain ⟨o2, ho2, hp2, hm2⟩ :=
            updateOrderToPaid_ok_inv db oid (some (toPaymentResult c)) now db1 hu
          have ho2e : o2 = o := by
            rw [ho] at ho2
            exact (Option.some.inj ho2).symm
          subst ho2e
          have hsnd : (approvePayPalOrder db oid (some c) now).2 = db1 := by
            simp [approvePayPalOrder, ho, hcm, hu]
          exact ⟨o2, toPaymentResult c, rfl, hp2, by
            rw [hsnd]
            exact (markPaidTx_eq db oid o2 (some (toPaymentResult c)) now db1 hm2).1⟩

theorem deliver_snd_cases (db : Db) (oid : String) (now : Nat) :
    (deliverOrder db oid now).2 = db ∨
    ∃ o, db.orders oid = some o ∧ o.isPaid = true ∧
      (deliverOrder db oid now).2.orders =
        fun i => if i = oid then
            some { o with isDelivered := true, deliveredAt := some now }
          else db.orders i := by
  cases ho : db.orders oid with
  | none => left; simp [deliverOrder, ho]
  | some o =>
    cases hp : o.isPaid with
    | false => left; simp [deliverOrder, ho, hp]
    | true =>
      right
      exact ⟨o, rfl, hp, by simp [deliverOrder, ho, hp, setOrder]⟩

theorem create_snd_cases (db : Db) (session : Option (Option String))
    (cart? : Option Cart) (oid : String) (now : Nat) :
    (createOrder db session cart? oid now).2 = db ∨
    ∃ uid addr pm cart, db.orders oid = none ∧
      (createOrder db session cart? oid now).2.orders =
        fun i => if i = oid then some (assembledOrder uid addr pm cart now)
                 else db.orders i := by
  cases session with
  | none => left; simp [createOrder]
  | some muid =>
  cases muid with
  | none => left; simp [createOrder]
  | some uid =>
  by_cases h3 : uid = ""
  · left; simp [createOrder, h3]
  cases h4 : db.users uid with
  | none => left; simp [createOrder, h3, h4]
  | some user =>
  cases cart? with
  | none => left; simp [createOrder, h3, h4]
  | some cart =>
  cases h6 : cart.items.isEmpty with
  | true => left; simp [createOrder, h3, h4, h6]
  | false =>
  cases h7 : user.address with
  | none => left; simp [createOrder, h3, h4, h6, h7]
  | some addr =>
  cases h8 : jsStrFalsy user.paymentMethod with
  | true => left; simp [createOrder, h3, h4, h6, h7, h8]
  | false =>
  cases h9 : insertOrderParseOk uid (user.paymentMethod.getD "") cart with
  | false => left; simp [createOrder, h3, h4, h6, h7, h8, h9]
  | true =>
  cases h10 : db.orders oid with
  | some o0 => left; simp [createOrder, h3, h4, h6, h7, h8, h9, h10]
  | none =>
  cases h11 : decide (cart.items.map (fun i => i.productId)).Nodup with
  | false => left; simp [createOrder, h3, h4, h6, h7, h8, h9, h10, h11]
  | true =>
  cases h12 : cart.items.all (fun i => (db.products i.productId).isSome) with
  | false => left; simp [createOrder, h3, h4, h6, h7, h8, h9, h10, h11, h12]
  | true =>
  cases h13 : db.carts cart.id with
  | none => left; simp [createOrder, h3, h4, h6, h7, h8, h9, h10, h11, h12, h13]
  | some c0 =>
  have hsnd : (createOrder db (some (some uid)) (some cart) oid now).2 =
      { db with
        orders := fun i =>
          if i = oid then
            some (assembledOrder uid addr (user.paymentMethod.getD "") cart now)
          else db.orders i,
        carts := fun i =>
          if i = cart.id then some (clearedCart c0) else db.carts i } := by
    by_cases h14 : oid = ""
    · subst h14
      simp [createOrder, h3, h4, h6, h7, h8, h9, h10, h11, h12, h13]
    · simp [createOrder, h3, h4, h6, h7, h8, h9, h10, h11, h12, h13, h14]
  right
  exact ⟨uid, addr, user.paymentMethod.getD "", cart, rfl, by rw [hsnd]⟩

theorem override_preserves (f : String → Option Order) (oid : String)
    (onew : Order) (hOk : ∀ i o, f i = some o → OrderOk o)
    (hnew : OrderOk onew)
    (hmono : ∀ o, f oid = some o →
      (o.isPaid = true → onew.isPaid = true) ∧
      (o.isDelivered = true → onew.isDelivered = true)) :
    (∀ i o, (if i = oid then some onew else f i) = some o → OrderOk o) ∧
    (∀ i o o2, f i = some o →
      (if i = oid then some onew else f i) = some o2 →
      (o.isPaid = true → o2.isPaid = true) ∧
      (o.isDelivered = true → o2.isDelivered = true)) := by
  constructor
  · intro i o h
    by_cases hi : i = oid
    · rw [if_pos hi] at h
      injection h with h2
      subst h2
      exact hnew
    · rw [if_neg hi] at h
      exact hOk i o h
  · intro i o o2 h1 h2
    by_cases hi : i = oid
    · rw [if_pos hi] at h2
      injection h2 with h2
      subst h2
      subst hi
      exact hmono o h1
    · rw [if_neg hi] at h2
      rw [h1] at h2
      injection h2 with h2
      subst h2
      exact ⟨id, id⟩

theorem unchanged_invariants (db : Db) (hok : DbOk db) :
    DbOk db ∧
    ∀ oid o o2, db.orders oid = some o → db.orders oid = some o2 →
      (o.isPaid = true → o2.isPaid = true) ∧
      (o.isDelivered = true → o2.isDelivered = true) := by
  refine ⟨hok, ?_⟩
  intro oid o o2 h1 h2
  rw [h1] at h2
  injection h2 with h2
  subst h2
  exact ⟨id, id⟩

/-- C8: every database reachable through the core operations keeps the
order invariants — an unpaid order has no paid timestamp and a delivered
order is paid — and no operation moves an order backward: an order that
was paid stays paid and one that was delivered stays delivered across
every step. -/
theorem core_operations_preserve_order_invariants (db db2 : Db)
    (hok : DbOk db) (hstep : CoreStep db db2) :
    DbOk db2 ∧
    ∀ oid o o2, db.orders oid = some o → db2.orders oid = some o2 →
      (o.isPaid = true → o2.isPaid = true) ∧
      (o.isDelivered = true → o2.isDelivered = true) := by
  cases hstep with
  | create session cart? oid now =>
    rcases create_snd_cases db session cart? oid now with
      hsame | ⟨uid, addr, pm, cart, hfresh, horders⟩
    · rw [hsame]; exact unchanged_invariants db hok
    · have hnew : OrderOk (assembledOrder uid addr pm cart now) := by
        refine ⟨fun _ => rfl, ?_⟩
        intro hd
        simp [assembledOrder] at hd
      have hover := override_preserves db.orders oid
        (assembledOrder uid addr pm cart now) hok hnew
        (fun o h => by rw [hfresh] at h; cases h)
      constructor
      · intro i oo hoo
        rw [horders] at hoo
        exact hover.1 i oo hoo
      · intro i o o2 h1 h2
        rw [horders] at h2
        exact hover.2 i o o2 h1 h2
  | approve oid cap now =>
    rcases approve_snd_cases db oid cap now with
      hsame | ⟨o, pr, ho, hp, horders⟩
    · rw [hsame]; exact unchanged_invariants db hok
    · have hnew : OrderOk (paidOrder o (some pr) now) := by
        constructor
        · intro h
          simp [paidOrder] at h
        · intro _
          simp [paidOrder]
      have hover := override_preserves db.orders oid
        (paidOrder o (some pr) now) hok hnew ?_
      · constructor
        · intro i oo hoo
          rw [horders] at hoo
          exact hover.1 i oo hoo
        · intro i o1 o2 h1 h2
          rw [horders] at h2
          exact hover.2 i o1 o2 h1 h2
      · intro o0 h0
        rw [ho] at h0
        injection h0 with h0
        subst h0
        exact ⟨fun _ => by simp [paidOrder], fun hd => by simp [paidOrder, hd]⟩
  | cod oid now =>
    rcases cod_snd_cases db oid now with hsame | ⟨o, ho, hp, horders⟩
    · rw [hsame]; exact unchanged_invariants db hok
    · have hnew : OrderOk (paidOrder o none now) := by
        constructor
        · intro h
          simp [paidOrder] at h
        · intro _
          simp [paidOrder]
      have hover := override_preserves db.orders oid (paidOrder o none now)
        hok hnew ?_
      · constructor
        · intro i oo hoo
          rw [horders] at hoo
          exact hover.1 i oo hoo
        · intro i o1 o2 h1 h2
          rw [horders] at h2
          exact hover.2 i o1 o2 h1 h2
      · intro o0 h0
        rw [ho] at h0
        injection h0 with h0
        subst h0
        exact ⟨fun _ => by simp [paidOrder], fun hd => by simp [paidOrder, hd]⟩
  | deliver oid now =>
    rcases deliver_snd_cases db oid now with hsame | ⟨o, ho, hp, horders⟩
    · rw [hsame]; exact unchanged_invariants db hok
    · have hnew : OrderOk { o with isDelivered := true, deliveredAt := some now } := by
        constructor
        · intro h
          simp only [] at h
          rw [hp] at h
          cases h
        · intro _
          exact hp
      have hover := override_preserves db.orders oid
        { o with isDelivered := true, deliveredAt := some now } hok hnew ?_
      · constructor
        · intro i oo hoo
          rw [horders] at hoo
          exact hover.1 i oo hoo
        · intro i o1 o2 h1 h2
          rw [horders] at h2
          exact hover.2 i o1 o2 h1 h2
      · intro o0 h0
        rw [ho] at h0
        injection h0 with h0
        subst h0
        exact ⟨fun h => h, fun _ => rfl⟩

/-- Order invariants hold in the concrete starting database. -/
theorem dbok_dbA : DbOk dbA := by
  intro oid o h
  simp only [dbA] at h
  split at h
  · injection h with h2
    subst h2
    exact ⟨fun _ => rfl, by intro hd; simp [ordA] at hd⟩
  · cases h

/-- Witness for C8: the invariants survive a concrete cash-on-delivery
payment step from the concrete database. -/
theorem core_operations_preserve_order_invariants_witness :
    DbOk (updateOrderToPaidByCOD dbA "o1" 7).2 :=
  (core_operations_preserve_order_invariants dbA
    (updateOrderToPaidByCOD dbA "o1" 7).2 dbok_dbA
    (CoreStep.cod dbA "o1" 7)).1

/-- C9 counterexample: round2 (src/lib/utils.ts) evaluates
Math.round((value + Number.EPSILON) * 100) / 100 on IEEE-754 binary64
values, and this floating evaluation deviates from exact decimal half-up
rounding at two decimals: for the double nearest 2.135 the computed
result is 213 cents (2.13) where half-up rounding of 2.135 gives 214
cents (2.14).  The first three conjuncts certify the binades used — the
input lies in [2,4) with unit in the last place 2 ^ (-51), and the scaled
product lies in [128,256) with unit in the last place 2 ^ (-45) — so the
grids fed to the rounding steps are the binary64 ones. -/
theorem round2_float_trace_deviates_from_half_up :
    ((2 : Rat) ≤ 2135 / 1000 ∧ (2135 / 1000 : Rat) < 4) ∧
    ((2 : Rat) ≤ rnGrid (1 / 2 ^ 51) (2135 / 1000) ∧
      rnGrid (1 / 2 ^ 51) (2135 / 1000) + 1 / 2 ^ 52 < 4) ∧
    ((128 : Rat) ≤
        rnGrid (1 / 2 ^ 51)
          (rnGrid (1 / 2 ^ 51) (2135 / 1000) + 1 / 2 ^ 52) * 100 ∧
      rnGrid (1 / 2 ^ 51)
          (rnGrid (1 / 2 ^ 51) (2135 / 1000) + 1 / 2 ^ 52) * 100 < 256) ∧
    jsRound2Cents (1 / 2 ^ 51) (1 / 2 ^ 45) (2135 / 1000) = 213 ∧
    halfUpCents (2135 / 1000) = 214 ∧ (213 : Int) ≠ 214 := by
  norm_num [rnGrid, jsRound2Cents, jsMathRound, halfUpCents]

/-- C9 amended: the pricing arithmetic runs on binary floating point, and
round2 deviates from exact half-up rounding on inputs such as the double
nearest 2.135; what does hold is that in exact rational semantics round2
is the identity on amounts that are already at two-decimal precision, so
a total formed by applying round2 to the sum of two-decimal itemsPrice,
shippingPrice and taxPrice equals that sum exactly, with no drift. -/
theorem round2Q_total_consistency (na nb nc : Int) :
    round2Q ((na : Rat) / 100 + (nb : Rat) / 100 + (nc : Rat) / 100) =
      (na : Rat) / 100 + (nb : Rat) / 100 + (nc : Rat) / 100 := by
  have hsum : (na : Rat) / 100 + (nb : Rat) / 100 + (nc : Rat) / 100 =
      ((na + nb + nc : Int) : Rat) / 100 := by
    push_cast
    ring
  rw [hsum]
  unfold round2Q jsMathRound
  have harg : (((na + nb + nc : Int) : Rat) / 100 + 1 / 2 ^ 52) * 100 + 1 / 2 =
      ((na + nb + nc : Int) : Rat) + (100 / 2 ^ 52 + 1 / 2) := by
    ring
  rw [harg, Int.floor_int_add]
  have hz : ⌊(100 / 2 ^ 52 + 1 / 2 : Rat)⌋ = 0 := by
    rw [Int.floor_eq_zero_iff]
    constructor <;> norm_num
  rw [hz, add_zero]

end ProShop
